import Mathlib

/-!
Verification of the inventory-tonic repository.

The program is a single-page inventory manager: a React component
(`src/pages/Inventory.tsx`) issuing CRUD operations against a Postgres
table guarded by row-level-security policies (`src/unnamed/part_000`,
the SQL migration).  This file shallowly embeds the data model, the SQL
row-level semantics and the client operations, and proves the frozen
claims about them.

Modelling conventions:
- JavaScript strings are `List Char`; `null`-able text columns are
  `Option (List Char)`.
- User identities and row ids (UUIDs) are `Nat`; timestamps are `Nat`.
- JavaScript numbers that can be non-finite (the `quantity` and
  `threshold` form states, fed through `parseInt`) are `Option Int`,
  with `none` standing for a non-finite value (NaN / Infinity).
- `unit_price` (SQL `DECIMAL(10,2)`, JS `parseFloat`/`toFixed`) is `ℚ`.
- Fallible operations return `Except`.
-/

/-- Models the JavaScript whitespace test used by `String.prototype.trim`
(restricted to the ASCII whitespace characters). -/
def jsWs (c : Char) : Bool :=
  c == ' ' || c == '\t' || c == '\n' || c == '\r' || c == '\x0b' || c == '\x0c'

/-- Models `s.trim()`: drops leading and trailing whitespace. -/
def jsTrim (s : List Char) : List Char :=
  ((s.dropWhile jsWs).reverse.dropWhile jsWs).reverse

/-- Models `s.toLowerCase()` (ASCII range; the repository only ever
compares ASCII text). -/
def jsToLower (s : List Char) : List Char :=
  s.map Char.toLower

/-- Models `hay.includes(sub)`: `sub` occurs contiguously in `hay`. -/
def jsIncludes (hay sub : List Char) : Bool :=
  hay.tails.any fun t => sub.isPrefixOf t

/-- Embeds the row type of `public.inventory_items`
(`src/unnamed/part_000`, lines 2-14), which is also the client-side
`InventoryItem` interface (`Inventory.tsx`, lines 15-27). -/
structure InventoryItem where
  id : Nat
  user_id : Nat
  name : List Char
  description : Option (List Char)
  sku : Option (List Char)
  category : Option (List Char)
  quantity : Int
  unit_price : Option ℚ
  low_stock_threshold : Option Int
  created_at : Nat
  updated_at : Nat
deriving DecidableEq, Repr

/-- State of the backing store: the registered user identities
(`auth.users`, referenced by the `user_id` foreign key) and the
`inventory_items` rows. -/
structure DB where
  users : List Nat
  rows : List InventoryItem
deriving DecidableEq, Repr

/-- Store-reported failures: a row-level-security `WITH CHECK` rejection
on insert, or the `user_id REFERENCES auth.users(id)` foreign-key
violation. -/
inductive StoreErr
  | policyViolation
  | foreignKeyViolation
deriving DecidableEq, Repr

/-- Embeds the `SELECT` policy (`part_000`, lines 20-23): a select sees
exactly the rows with `auth.uid() = user_id`.  `uid = none` models an
unauthenticated caller (`auth.uid()` is SQL `NULL`, so the policy
predicate is never satisfied). -/
def rlsSelect (uid : Option Nat) (db : DB) : List InventoryItem :=
  db.rows.filter fun r => uid == some r.user_id

/-- Embeds the `INSERT` policy `WITH CHECK (auth.uid() = user_id)`
(`part_000`, lines 25-28) together with the `user_id` foreign key
(`part_000`, line 4): a failed check or a missing referenced user is a
store-reported error, otherwise the row is appended. -/
def rlsInsert (uid : Option Nat) (row : InventoryItem) (db : DB) :
    Except StoreErr DB :=
  if uid != some row.user_id then .error .policyViolation
  else if !db.users.contains row.user_id then .error .foreignKeyViolation
  else .ok { db with rows := db.rows ++ [row] }

/-- Effect of `UPDATE inventory_items SET quantity = v WHERE id = rid` on
one row: rows invisible under the `UPDATE` policy `USING (auth.uid() =
user_id)` (`part_000`, lines 30-33) or not matching the client's
`.eq("id", id)` filter are untouched.  On each updated row the
`update_inventory_items_updated_at` trigger (`part_000`, lines 41-44)
fires; its function `public.update_updated_at_column` is not in the
sources, so its effect is modelled from the spec: `updated_at` is
"refreshed automatically on every mutation" to the current time. -/
def updRow (uid : Option Nat) (rid : Nat) (v : Int) (now : Nat)
    (r : InventoryItem) : InventoryItem :=
  if uid == some r.user_id && r.id == rid then
    { r with quantity := v, updated_at := now }
  else r

/-- Embeds the store-side effect of the client's quantity update
(`Inventory.tsx`, lines 120-123): every visible row matching the id
filter gets the new quantity and a refreshed `updated_at`; all other
rows are unchanged.  Zero matching rows is not an error. -/
def rlsUpdateQuantity (uid : Option Nat) (rid : Nat) (v : Int) (now : Nat)
    (db : DB) : DB :=
  { db with rows := db.rows.map (updRow uid rid v now) }

/-- Embeds the store-side effect of `DELETE ... WHERE id = rid` under the
`DELETE` policy `USING (auth.uid() = user_id)` (`part_000`, lines
35-38): only visible rows matching the id filter are removed. -/
def rlsDelete (uid : Option Nat) (rid : Nat) (db : DB) : DB :=
  { db with rows := db.rows.filter fun r => !(uid == some r.user_id && r.id == rid) }

/-- Embeds the `updateQuantity` mutation (`Inventory.tsx`, lines
118-125): the supabase update reports an error only on transport or
constraint failure; a row-level-security denial silently affects zero
rows and the call succeeds, so the mutation always resolves `ok` with
the (possibly unchanged) store. -/
def updateQuantityMutation (uid : Option Nat) (rid : Nat) (newQty : Int)
    (now : Nat) (db : DB) : Except StoreErr DB :=
  .ok (rlsUpdateQuantity uid rid newQty now db)

/-- Embeds the `deleteItem` mutation (`Inventory.tsx`, lines 134-137):
like the update, a zero-rows-affected delete is reported as success. -/
def deleteMutation (uid : Option Nat) (rid : Nat) (db : DB) :
    Except StoreErr DB :=
  .ok (rlsDelete uid rid db)

/-- Embeds the quantity written by the decrement button
(`Inventory.tsx`, line 310): `Math.max(0, it.quantity - 1)`. -/
def decWrite (q : Int) : Int := max 0 (q - 1)

/-- Embeds the quantity written by the increment button
(`Inventory.tsx`, line 318): `it.quantity + 1`. -/
def incWrite (q : Int) : Int := q + 1

/-- Embeds the low-stock test (`Inventory.tsx`, line 292):
`typeof it.low_stock_threshold === "number" && it.quantity <=
it.low_stock_threshold`. -/
def lowFlag (it : InventoryItem) : Bool :=
  match it.low_stock_threshold with
  | some t => decide (it.quantity ≤ t)
  | none => false

/-- Embeds the `filtered` memo (`Inventory.tsx`, lines 148-157).  The
JavaScript array `[it.name, it.sku, it.category, it.description]` mixes
strings and nulls, so it is modelled as a list of options;
`.filter(Boolean)` drops both the nulls and the empty strings (the
falsy values). -/
def filteredList (items : Option (List InventoryItem)) (search : List Char) :
    List InventoryItem :=
  match items with
  | none => []
  | some its =>
    let q := jsToLower (jsTrim search)
    if q.isEmpty then its
    else
      its.filter fun it =>
        ((([some it.name, it.sku, it.category, it.description].filterMap id).filter
            fun f => !f.isEmpty).any fun f => jsIncludes (jsToLower f) q)

/-- Spec-side matching predicate, written from the claim's words for
comparison with `filteredList`: after trimming and lowercasing the
search string, at least one of the non-null fields among name, sku,
category, description contains it as a case-insensitive substring; an
empty trimmed search matches everything. -/
def specMatches (search : List Char) (it : InventoryItem) : Bool :=
  let q := jsToLower (jsTrim search)
  q.isEmpty ||
    ([some it.name, it.sku, it.category, it.description].filterMap id).any
      fun f => jsIncludes (jsToLower f) q

/-- Numeric value of a run of decimal digits. -/
def digitsVal (ds : List Char) : Nat :=
  ds.foldl (fun a c => a * 10 + (c.toNat - 48)) 0

/-- Character-level front end of `parseFloat`: optional leading
whitespace, optional sign, integer digits, optional fraction digits,
trailing characters ignored.  Returns (negative?, integer part,
fraction digits value, fraction length); `none` models NaN (no digits
at all). -/
def parseDecParts (s : List Char) : Option (Bool × Nat × Nat × Nat) :=
  let s1 := s.dropWhile jsWs
  let neg := s1.headD ' ' == '-'
  let s2 := if neg || s1.headD ' ' == '+' then s1.tail else s1
  let intDs := s2.takeWhile Char.isDigit
  let rest := s2.dropWhile Char.isDigit
  let fracDs :=
    match rest with
    | '.' :: t => t.takeWhile Char.isDigit
    | _ => []
  if intDs.isEmpty && fracDs.isEmpty then none
  else some (neg, digitsVal intDs, digitsVal fracDs, fracDs.length)

/-- Rational value denoted by parsed decimal components. -/
def partsToRat (p : Bool × Nat × Nat × Nat) : ℚ :=
  (if p.1 then -1 else 1) *
    ((p.2.1 : ℚ) + (p.2.2.1 : ℚ) / ((10 : ℚ) ^ p.2.2.2))

/-- Models `parseFloat(s)` on the plain decimal forms the price input
produces.  JavaScript exponent and Infinity forms are not modelled —
the repository never produces them. -/
def parseFloatQ (s : List Char) : Option ℚ :=
  (parseDecParts s).map partsToRat

/-- Models `Number(x.toFixed(2))`: round to the nearest multiple of
1/100, half away from the smaller value (round-half-up on the exact
decimal value; this coincides with the JavaScript result on every input
whose double representation is not exactly at a tie, in particular on
all inputs in this development). -/
def toFixed2 (x : ℚ) : ℚ :=
  ((⌊x * 100 + 1 / 2⌋ : ℤ) : ℚ) / 100

/-- Embeds the add-form component state (`Inventory.tsx`, lines 37-43).
`quantity` and `threshold` hold the result of `parseInt`, which can be
NaN (`none`); `unitPrice` is kept as the raw input string. -/
structure FormState where
  name : List Char
  sku : List Char
  category : List Char
  description : List Char
  quantity : Option Int
  unitPrice : List Char
  threshold : Option Int
deriving DecidableEq, Repr

/-- Embeds the `useState` initial values (`Inventory.tsx`, lines 37-43):
all text fields empty, quantity 0, threshold 10. -/
def initialForm : FormState :=
  { name := [], sku := [], category := [], description := []
    quantity := some 0, unitPrice := [], threshold := some 10 }

/-- Models the `t || null` normalization on an already-trimmed optional
text field: the empty string becomes SQL `NULL`. -/
def emptyToNull (s : List Char) : Option (List Char) :=
  if s.isEmpty then none else some s

/-- Embeds the row payload built by `addItem.mutationFn`
(`Inventory.tsx`, lines 90-99), completed with the store-generated
columns (`id` from `gen_random_uuid()`, `created_at`/`updated_at` from
`DEFAULT now()`, `part_000` lines 3, 12-13).  A non-empty `unitPrice`
string that still fails to parse is NaN in JavaScript, which the JSON
transport serializes as `null`. -/
def mkRow (uid : Nat) (f : FormState) (newId now : Nat) : InventoryItem :=
  { id := newId
    user_id := uid
    name := jsTrim f.name
    description := emptyToNull (jsTrim f.description)
    sku := emptyToNull (jsTrim f.sku)
    category := emptyToNull (jsTrim f.category)
    quantity := f.quantity.getD 0
    unit_price :=
      if f.unitPrice.isEmpty then none
      else (parseFloatQ f.unitPrice).map toFixed2
    low_stock_threshold := some (f.threshold.getD 10)
    created_at := now
    updated_at := now }

/-- Client-side failures of the add mutation (`Inventory.tsx`, lines
86-100): the `"Not authenticated"` throw, the `"Name is required"`
validation throw, and a re-thrown store error. -/
inductive AddError
  | notAuthenticated
  | validationError
  | storeError (e : StoreErr)
deriving DecidableEq, Repr

/-- Embeds `addItem.mutationFn` (`Inventory.tsx`, lines 85-101): bail
out when unauthenticated, raise the validation error when the trimmed
name is empty — before any store call — otherwise insert the normalized
payload, surfacing a store-reported failure. -/
def addItem (user : Option Nat) (f : FormState) (db : DB) (newId now : Nat) :
    Except AddError DB :=
  match user with
  | none => .error .notAuthenticated
  | some uid =>
    if (jsTrim f.name).isEmpty then .error .validationError
    else
      match rlsInsert (some uid) (mkRow uid f newId now) db with
      | .ok db2 => .ok db2
      | .error e => .error (.storeError e)

/-- Embeds the form state produced by `addItem.onSuccess`
(`Inventory.tsx`, lines 104-110): `setName("")`, `setSku("")`,
`setCategory("")`, `setDescription("")`, `setQuantity(0)`,
`setUnitPrice("")`, `setThreshold(10)`. -/
def resetForm : FormState :=
  { name := [], sku := [], category := [], description := []
    quantity := some 0, unitPrice := [], threshold := some 10 }

/-- Embeds the full add flow including the mutation callbacks
(`Inventory.tsx`, lines 85-116): on success the form is reset, on error
(`onError` only toasts) every form field is left unchanged. -/
def addItemFlow (user : Option Nat) (f : FormState) (db : DB)
    (newId now : Nat) : FormState × Except AddError DB :=
  match addItem user f db newId now with
  | .ok db2 => (resetForm, .ok db2)
  | .error e => (f, .error e)

/-- Ordering used by the list query: row `a` precedes row `b` when its
creation time is at least `b`'s (`created_at` descending). -/
def createdDesc (a b : InventoryItem) : Prop :=
  b.created_at ≤ a.created_at

instance : DecidableRel createdDesc :=
  fun a b => inferInstanceAs (Decidable (b.created_at ≤ a.created_at))

instance : IsTotal InventoryItem createdDesc :=
  ⟨fun a b => Nat.le_total b.created_at a.created_at⟩

instance : IsTrans InventoryItem createdDesc :=
  ⟨fun _ _ _ hab hbc => le_trans hbc hab⟩

/-- Outcome of the items query (`Inventory.tsx`, lines 72-83): the query
is not issued at all while `enabled: !!user && !loading` is false;
otherwise the store answers with the policy-visible rows ordered by
`created_at` descending (the `.order("created_at", { ascending: false })`
clause, modelled by a sort). -/
inductive ListOutcome
  | notIssued
  | ok (items : List InventoryItem)
deriving DecidableEq, Repr

/-- Embeds the `useQuery` list fetch (`Inventory.tsx`, lines 72-83). -/
def listQuery (user : Option Nat) (loading : Bool) (db : DB) : ListOutcome :=
  if user.isSome && !loading then
    .ok (List.insertionSort createdDesc (rlsSelect user db))
  else .notIssued

/-- Tuple of the columns `updateQuantity` must not touch (everything
except `quantity` and `updated_at`). -/
def immutableView (r : InventoryItem) :
    Nat × Nat × List Char × Option (List Char) × Option (List Char) ×
      Option (List Char) × Option ℚ × Option Int × Nat :=
  (r.id, r.user_id, r.name, r.description, r.sku, r.category,
    r.unit_price, r.low_stock_threshold, r.created_at)

/-! Concrete fixtures used by counterexamples and witnesses. -/

/-- Row with id 7 owned by user 2. -/
def rowB : InventoryItem :=
  { id := 7, user_id := 2, name := "Gadget".toList, description := none
    sku := none, category := none, quantity := 3, unit_price := none
    low_stock_threshold := some 10, created_at := 1, updated_at := 1 }

/-- Row with no low-stock threshold. -/
def rowNoThreshold : InventoryItem :=
  { rowB with id := 8, low_stock_threshold := none }

/-- Store with users 1 and 2 and the single row `rowB` (owned by 2). -/
def fixtureDB : DB := { users := [1, 2], rows := [rowB] }

/-- Store with user 1 only and no rows. -/
def dbEmpty : DB := { users := [1], rows := [] }

/-- Valid form without a unit price. -/
def simpleForm : FormState :=
  { name := "Pen".toList, sku := [], category := [], description := []
    quantity := some 2, unitPrice := [], threshold := some 10 }

/-- Form of the round-trip example: quantity 5, unit price "19.999". -/
def priceForm : FormState :=
  { name := "Widget".toList, sku := [], category := [], description := []
    quantity := some 5, unitPrice := "19.999".toList, threshold := some 10 }

/-- Form with whitespace-only optional fields and non-finite numbers. -/
def nanForm : FormState :=
  { name := "N".toList, sku := "  ".toList, category := []
    description := " ".toList, quantity := none
    unitPrice := "19.999".toList, threshold := none }

/-- Item from the spec filtering example. -/
def blueShirt : InventoryItem :=
  { id := 1, user_id := 1, name := "Blue Shirt".toList, description := none
    sku := some "TS-1".toList, category := none, quantity := 4
    unit_price := none, low_stock_threshold := some 10
    created_at := 2, updated_at := 2 }

/-- Item from the spec filtering example. -/
def redHat : InventoryItem :=
  { id := 2, user_id := 1, name := "Red Hat".toList, description := none
    sku := some "H-2".toList, category := none, quantity := 4
    unit_price := none, low_stock_threshold := some 10
    created_at := 3, updated_at := 3 }

/-! Helper lemmas. -/

lemma jsIncludes_nil (q : List Char) (hq : q ≠ []) : jsIncludes [] q = false := by
  cases q with
  | nil => exact absurd rfl hq
  | cons c t => rfl

lemma any_filter_isEmpty (fs : List (List Char)) (g : List Char → Bool)
    (h : g [] = false) :
    ((fs.filter fun f => !f.isEmpty).any g) = fs.any g := by
  induction fs with
  | nil => rfl
  | cons f t ih =>
    by_cases hf : f = []
    · subst hf
      simp [List.filter_cons, h, ih]
    · have hne : (!f.isEmpty) = true := by
        simp [List.isEmpty_iff, hf]
      simp [List.filter_cons, hne, ih]

lemma updRow_untouched (uid : Option Nat) (rid : Nat) (v : Int) (now : Nat)
    (r : InventoryItem) (h : ¬(uid = some r.user_id ∧ r.id = rid)) :
    updRow uid rid v now r = r := by
  unfold updRow
  rw [if_neg]
  simpa using h

lemma updRow_twice (uid : Option Nat) (rid : Nat) (v : Int) (t1 t2 : Nat)
    (r : InventoryItem) :
    updRow uid rid v t2 (updRow uid rid v t1 r) = updRow uid rid v t2 r := by
  unfold updRow
  by_cases h : (uid == some r.user_id && r.id == rid) = true
  · simp [h]
  · simp [h]

lemma updRow_quantity_agnostic (uid : Option Nat) (rid : Nat) (v : Int)
    (t1 t2 : Nat) (r : InventoryItem) :
    (updRow uid rid v t2 r).quantity = (updRow uid rid v t1 r).quantity := by
  unfold updRow
  split <;> rfl

lemma updRow_immutableView (uid : Option Nat) (rid : Nat) (v : Int)
    (now : Nat) (r : InventoryItem) :
    immutableView (updRow uid rid v now r) = immutableView r := by
  unfold updRow immutableView
  split <;> rfl

lemma rlsInsert_ok (uid : Option Nat) (row : InventoryItem) (db db2 : DB)
    (h : rlsInsert uid row db = .ok db2) :
    db2 = { db with rows := db.rows ++ [row] } := by
  unfold rlsInsert at h
  split at h
  · exact absurd h (by simp)
  · split at h
    · exact absurd h (by simp)
    · exact (Except.ok.injEq _ _ ▸ h).symm

/-! Claim theorems. -/

/-- Claim C5: for every item whose `low_stock_threshold` is non-null, the item
is flagged as low stock iff its quantity is at most the threshold; items
with a null threshold are never flagged. -/
theorem c5_low_stock_flag (it : InventoryItem) :
    (∀ t, it.low_stock_threshold = some t →
      (lowFlag it = true ↔ it.quantity ≤ t)) ∧
    (it.low_stock_threshold = none → lowFlag it = false) := by
  constructor
  · intro t ht
    simp [lowFlag, ht]
  · intro h
    simp [lowFlag, h]

/-- Witness for C5 at the concrete rows `rowB` (threshold 10, quantity
3) and `rowNoThreshold` (null threshold). -/
theorem c5_low_stock_flag_witness :
    (lowFlag rowB = true ↔ rowB.quantity ≤ 10) ∧
    lowFlag rowNoThreshold = false :=
  ⟨(c5_low_stock_flag rowB).1 10 rfl,
    (c5_low_stock_flag rowNoThreshold).2 rfl⟩

/-- Claim C6: the decrement control writes `max 0 (quantity - 1)`, so
decrementing at quantity 0 writes 0, never a negative value; and any
quantity written by the UI controls from a non-negative quantity is
again non-negative. -/
theorem c6_decrement_floor (q : Int) :
    decWrite q = max 0 (q - 1) ∧ 0 ≤ decWrite q ∧ decWrite 0 = 0 ∧
      (0 ≤ q → 0 ≤ incWrite q) := by
  refine ⟨rfl, le_max_left _ _, by decide, fun h => ?_⟩
  unfold incWrite
  linarith

/-- Witness for C6 at quantities 0 and 5. -/
theorem c6_decrement_floor_witness :
    decWrite 0 = max 0 (0 - 1) ∧ 0 ≤ decWrite 0 ∧ decWrite 0 = 0 ∧
      0 ≤ incWrite 5 :=
  ⟨(c6_decrement_floor 0).1, (c6_decrement_floor 0).2.1,
    (c6_decrement_floor 0).2.2.1, (c6_decrement_floor 5).2.2.2 (by decide)⟩

/-- Claim C2 counterexample: caller 1 updates / deletes row 7, which is owned
by user 2.  The policy makes the row invisible, zero rows are affected,
and both mutations resolve as plain success with the store unchanged —
no `StoreError` is raised, contradicting the claim. -/
theorem c2_counterexample :
    updateQuantityMutation (some 1) 7 5 99 fixtureDB = .ok fixtureDB ∧
    deleteMutation (some 1) 7 fixtureDB = .ok fixtureDB :=
  ⟨rfl, rfl⟩

/-- Claim C2 (amended): an UpdateQuantity or Delete whose target row does not
belong to the caller or does not exist affects zero rows and completes
as plain success (a silent no-op) with the store unchanged; no
`StoreError` is surfaced. -/
theorem c2_zero_rows_silent_success (uid : Option Nat) (rid : Nat)
    (v : Int) (t : Nat) (db : DB)
    (h : ∀ r ∈ db.rows, ¬(uid = some r.user_id ∧ r.id = rid)) :
    updateQuantityMutation uid rid v t db = .ok db ∧
    deleteMutation uid rid db = .ok db := by
  have hmap : db.rows.map (updRow uid rid v t) = db.rows := by
    have := List.map_congr_left (l := db.rows)
      (g := fun r => r) (fun r hr => updRow_untouched uid rid v t r (h r hr))
    simpa using this
  have hfil : (db.rows.filter fun r =>
      !(uid == some r.user_id && r.id == rid)) = db.rows := by
    rw [List.filter_eq_self]
    intro r hr
    simpa using not_and_or.mp (h r hr)
  constructor
  · show Except.ok (rlsUpdateQuantity uid rid v t db) = Except.ok db
    unfold rlsUpdateQuantity
    rw [hmap]
  · show Except.ok (rlsDelete uid rid db) = Except.ok db
    unfold rlsDelete
    rw [hfil]

/-- Witness for the amended C2: caller 1 against row 7 owned by user 2
(and equally a row id absent from the store). -/
theorem c2_zero_rows_silent_success_witness :
    updateQuantityMutation (some 1) 7 4 50 fixtureDB = .ok fixtureDB ∧
    deleteMutation (some 1) 7 fixtureDB = .ok fixtureDB :=
  c2_zero_rows_silent_success (some 1) 7 4 50 fixtureDB (by decide)

/-- Claim C3: row-level ownership isolation, straight from the four policies:
a caller authenticated as `a` never sees a row owned by a different
user `b` in a select, an update or delete issued by `a` leaves such a
row untouched (zero rows affected), and `a` cannot insert a row with
`user_id = b` (the insert check rejects it). -/
theorem c3_ownership_isolation (a b : Nat) (hab : a ≠ b) (db : DB)
    (r : InventoryItem) (hr : r.user_id = b) (rid : Nat) (v : Int) (t : Nat) :
    r ∉ rlsSelect (some a) db ∧
    (r ∈ db.rows → r ∈ (rlsUpdateQuantity (some a) rid v t db).rows) ∧
    (r ∈ db.rows → r ∈ (rlsDelete (some a) rid db).rows) ∧
    rlsInsert (some a) r db = .error .policyViolation := by
  have hne : ¬(some a = some r.user_id) := by
    simp [hr]
    exact hab
  refine ⟨?_, ?_, ?_, ?_⟩
  · intro hmem
    have hp := (List.mem_filter.mp hmem).2
    exact hne (by simpa using hp)
  · intro hmem
    have heq : updRow (some a) rid v t r = r :=
      updRow_untouched (some a) rid v t r (fun hc => hne (by simp [hc.1]))
    have := List.mem_map_of_mem (updRow (some a) rid v t) hmem
    rw [heq] at this
    exact this
  · intro hmem
    refine List.mem_filter.mpr ⟨hmem, ?_⟩
    simp [hr]
    exact Or.inl hab
  · unfold rlsInsert
    rw [if_pos]
    simpa using hne

/-- Witness for C3: caller 1 against `rowB` (owned by user 2) in
`fixtureDB`. -/
theorem c3_ownership_isolation_witness :
    rowB ∉ rlsSelect (some 1) fixtureDB ∧
    rowB ∈ (rlsUpdateQuantity (some 1) 7 5 9 fixtureDB).rows ∧
    rowB ∈ (rlsDelete (some 1) 7 fixtureDB).rows ∧
    rlsInsert (some 1) rowB fixtureDB = .error .policyViolation := by
  obtain ⟨h1, h2, h3, h4⟩ :=
    c3_ownership_isolation 1 2 (by decide) fixtureDB rowB rfl 7 5 9
  have hmem : rowB ∈ fixtureDB.rows := by
    simp [fixtureDB]
  exact ⟨h1, h2 hmem, h3 hmem, h4⟩

/-- Claim C9: two successive quantity updates with the same value leave every
row's quantity as after the first call, leave every column other than
`quantity` and `updated_at` exactly as before either call, and on the
targeted owned row set quantity to the value and `updated_at` to the
time of the respective call. -/
theorem c9_update_idempotent (uid : Option Nat) (rid : Nat) (v : Int)
    (t1 t2 : Nat) (db : DB) :
    ((rlsUpdateQuantity uid rid v t2 (rlsUpdateQuantity uid rid v t1 db)).rows.map
        InventoryItem.quantity =
      (rlsUpdateQuantity uid rid v t1 db).rows.map InventoryItem.quantity) ∧
    ((rlsUpdateQuantity uid rid v t2 (rlsUpdateQuantity uid rid v t1 db)).rows.map
        immutableView = db.rows.map immutableView) ∧
    (∀ r ∈ db.rows, uid = some r.user_id → r.id = rid →
      { r with quantity := v, updated_at := t1 } ∈
          (rlsUpdateQuantity uid rid v t1 db).rows ∧
      { r with quantity := v, updated_at := t2 } ∈
          (rlsUpdateQuantity uid rid v t2 (rlsUpdateQuantity uid rid v t1 db)).rows) := by
  refine ⟨?_, ?_, ?_⟩
  · unfold rlsUpdateQuantity
    simp only [List.map_map]
    refine List.map_congr_left fun r hr => ?_
    simp only [Function.comp_apply]
    rw [updRow_twice]
    exact updRow_quantity_agnostic uid rid v t1 t2 r
  · unfold rlsUpdateQuantity
    simp only [List.map_map]
    refine List.map_congr_left fun r hr => ?_
    simp only [Function.comp_apply]
    rw [updRow_twice, updRow_immutableView]
  · intro r hmem hu hid
    have hcond : (uid == some r.user_id && r.id == rid) = true := by
      simp [hu, hid]
    have h1 : updRow uid rid v t1 r = { r with quantity := v, updated_at := t1 } := by
      unfold updRow
      rw [if_pos hcond]
    have h2 : updRow uid rid v t2 (updRow uid rid v t1 r) =
        { r with quantity := v, updated_at := t2 } := by
      rw [updRow_twice]
      unfold updRow
      rw [if_pos hcond]
    constructor
    · have := List.mem_map_of_mem (updRow uid rid v t1) hmem
      rw [h1] at this
      exact this
    · unfold rlsUpdateQuantity
      simp only [List.map_map]
      have := List.mem_map_of_mem
        (updRow uid rid v t2 ∘ updRow uid rid v t1) hmem
      rw [Function.comp_apply, h2] at this
      exact this

/-- Witness for C9: owner 2 updates row 7 of `fixtureDB` twice to
quantity 5, at times 3 and then 4. -/
theorem c9_update_idempotent_witness :
    ((rlsUpdateQuantity (some 2) 7 5 4 (rlsUpdateQuantity (some 2) 7 5 3 fixtureDB)).rows.map
        InventoryItem.quantity =
      (rlsUpdateQuantity (some 2) 7 5 3 fixtureDB).rows.map InventoryItem.quantity) ∧
    ((rlsUpdateQuantity (some 2) 7 5 4 (rlsUpdateQuantity (some 2) 7 5 3 fixtureDB)).rows.map
        immutableView = fixtureDB.rows.map immutableView) ∧
    { rowB with quantity := 5, updated_at := 3 } ∈
        (rlsUpdateQuantity (some 2) 7 5 3 fixtureDB).rows ∧
    { rowB with quantity := 5, updated_at := 4 } ∈
        (rlsUpdateQuantity (some 2) 7 5 4 (rlsUpdateQuantity (some 2) 7 5 3 fixtureDB)).rows := by
  obtain ⟨h1, h2, h3⟩ := c9_update_idempotent (some 2) 7 5 3 4 fixtureDB
  obtain ⟨h4, h5⟩ := h3 rowB (by simp [fixtureDB]) rfl rfl
  exact ⟨h1, h2, h4, h5⟩

/-- Claim C10: after a successful Create the form is reset to the `useState`
defaults (empty text fields, quantity 0, threshold 10), and a failed
Create leaves every form field unchanged. -/
theorem c10_form_reset (user : Option Nat) (f : FormState) (db : DB)
    (rid now : Nat) :
    (∀ db2, addItem user f db rid now = .ok db2 →
      addItemFlow user f db rid now = (initialForm, .ok db2)) ∧
    (∀ e, addItem user f db rid now = .error e →
      addItemFlow user f db rid now = (f, .error e)) ∧
    resetForm = initialForm := by
  refine ⟨fun db2 h => ?_, fun e h => ?_, rfl⟩
  · unfold addItemFlow
    rw [h]
    rfl
  · unfold addItemFlow
    rw [h]

/-- Witness for C10: a successful add with `simpleForm` resets the form;
an add that fails validation (empty name) leaves the form as it was. -/
theorem c10_form_reset_witness :
    addItemFlow (some 1) simpleForm dbEmpty 7 3 =
      (initialForm, .ok { users := [1], rows := [mkRow 1 simpleForm 7 3] }) ∧
    addItemFlow (some 1) initialForm dbEmpty 7 3 =
      (initialForm, .error .validationError) :=
  ⟨(c10_form_reset (some 1) simpleForm dbEmpty 7 3).1
      { users := [1], rows := [mkRow 1 simpleForm 7 3] } rfl,
    (c10_form_reset (some 1) initialForm dbEmpty 7 3).2.1
      AddError.validationError rfl⟩

/-- Claim C1: Create inserts a record iff the trimmed name is non-empty; an
empty trimmed name raises the validation error with no store call and
no row written; a store-reported insert failure surfaces as a store
error. -/
theorem c1_create_validation (uid : Nat) (f : FormState) (db : DB)
    (rid now : Nat) :
    (jsTrim f.name = [] →
      addItem (some uid) f db rid now = .error .validationError) ∧
    (jsTrim f.name ≠ [] → uid ∈ db.users →
      addItem (some uid) f db rid now =
        .ok { db with rows := db.rows ++ [mkRow uid f rid now] }) ∧
    (jsTrim f.name ≠ [] → ∀ e,
      rlsInsert (some uid) (mkRow uid f rid now) db = .error e →
      addItem (some uid) f db rid now = .error (.storeError e)) ∧
    (∀ db2, addItem (some uid) f db rid now = .ok db2 →
      jsTrim f.name ≠ [] ∧
      db2 = { db with rows := db.rows ++ [mkRow uid f rid now] }) := by
  refine ⟨?_, ?_, ?_, ?_⟩
  · intro h
    simp [addItem, List.isEmpty_iff, h]
  · intro hn hu
    have hins : rlsInsert (some uid) (mkRow uid f rid now) db =
        .ok { db with rows := db.rows ++ [mkRow uid f rid now] } := by
      have hc : db.users.contains (mkRow uid f rid now).user_id = true := by
        have h2 : (mkRow uid f rid now).user_id = uid := rfl
        rw [h2]
        exact List.elem_eq_true_of_mem hu
      unfold rlsInsert
      rw [if_neg (by simp [mkRow]), if_neg (by rw [hc]; simp)]
    simp [addItem, List.isEmpty_iff, hn, hins]
  · intro hn e herr
    simp [addItem, List.isEmpty_iff, hn, herr]
  · intro db2 h
    by_cases hempty : jsTrim f.name = []
    · simp [addItem, List.isEmpty_iff, hempty] at h
    · refine ⟨hempty, ?_⟩
      simp only [addItem, List.isEmpty_iff] at h
      rw [if_neg (by simpa [List.isEmpty_iff] using hempty)] at h
      rcases hcase : rlsInsert (some uid) (mkRow uid f rid now) db with e | db3
      · rw [hcase] at h
        simp at h
      · rw [hcase] at h
        simp only [Except.ok.injEq] at h
        subst h
        exact rlsInsert_ok _ _ _ _ hcase

/-- Witness for C1: empty name fails validation; a valid form by user 1
is inserted; user 5 (absent from `auth.users`) gets the foreign-key
store error. -/
theorem c1_create_validation_witness :
    addItem (some 1) initialForm dbEmpty 7 3 = .error .validationError ∧
    addItem (some 1) simpleForm dbEmpty 7 3 =
      .ok { dbEmpty with rows := dbEmpty.rows ++ [mkRow 1 simpleForm 7 3] } ∧
    addItem (some 5) simpleForm dbEmpty 7 3 =
      .error (.storeError .foreignKeyViolation) :=
  ⟨(c1_create_validation 1 initialForm dbEmpty 7 3).1 rfl,
    (c1_create_validation 1 simpleForm dbEmpty 7 3).2.1 (by decide) (by decide),
    (c1_create_validation 5 simpleForm dbEmpty 7 3).2.2.1 (by decide)
      StoreErr.foreignKeyViolation rfl⟩

/-- Claim C7: Create normalizes empty optional text fields to null, coerces a
non-finite quantity to 0 and a non-finite threshold to 10, rounds a
present unit price to 2 decimal places, and on the concrete round-trip
example (quantity 5, unit price "19.999") the stored and read-back row
carries quantity 5 and unit price 20.00. -/
theorem c7_create_normalization (uid : Nat) (f : FormState) (rid now : Nat) :
    (jsTrim f.description = [] → (mkRow uid f rid now).description = none) ∧
    (jsTrim f.sku = [] → (mkRow uid f rid now).sku = none) ∧
    (jsTrim f.category = [] → (mkRow uid f rid now).category = none) ∧
    (f.quantity = none → (mkRow uid f rid now).quantity = 0) ∧
    (f.threshold = none → (mkRow uid f rid now).low_stock_threshold = some 10) ∧
    (∀ x, parseFloatQ f.unitPrice = some x → f.unitPrice ≠ [] →
      (mkRow uid f rid now).unit_price = some (toFixed2 x) ∧
      ∃ n : ℤ, toFixed2 x = (n : ℚ) / 100) ∧
    (mkRow 1 priceForm 7 3).quantity = 5 ∧
    (mkRow 1 priceForm 7 3).unit_price = some 20 ∧
    addItem (some 1) priceForm dbEmpty 7 3 =
      .ok { users := [1], rows := [mkRow 1 priceForm 7 3] } ∧
    rlsSelect (some 1) { users := [1], rows := [mkRow 1 priceForm 7 3] } =
      [mkRow 1 priceForm 7 3] := by
  have hfloor : ⌊((19 : ℚ) + 999 / 10 ^ 3) * 100 + 1 / 2⌋ = (2000 : ℤ) := by
    rw [Int.floor_eq_iff]
    constructor <;> norm_num
  refine ⟨?_, ?_, ?_, ?_, ?_, ?_, rfl, ?_, rfl, rfl⟩
  · intro h
    simp [mkRow, emptyToNull, h]
  · intro h
    simp [mkRow, emptyToNull, h]
  · intro h
    simp [mkRow, emptyToNull, h]
  · intro h
    simp [mkRow, h]
  · intro h
    simp [mkRow, h]
  · intro x hx hne
    refine ⟨?_, ⟨⌊x * 100 + 1 / 2⌋, rfl⟩⟩
    simp [mkRow, List.isEmpty_iff, hne, hx]
  · have hp : parseDecParts priceForm.unitPrice = some (false, 19, 999, 3) := by
      decide
    have hval : parseFloatQ priceForm.unitPrice =
        some ((19 : ℚ) + 999 / 10 ^ 3) := by
      rw [parseFloatQ, hp]
      simp [partsToRat]
    have hemp : priceForm.unitPrice.isEmpty = false := by decide
    show (mkRow 1 priceForm 7 3).unit_price = some 20
    simp only [mkRow, hemp, Bool.false_eq_true, if_false, hval, Option.map_some']
    rw [toFixed2, hfloor]
    norm_num

/-- Witness for C7 at `nanForm`: whitespace-only sku and description,
empty category, non-finite quantity and threshold, unit price
"19.999". -/
theorem c7_create_normalization_witness :
    (mkRow 1 nanForm 7 3).description = none ∧
    (mkRow 1 nanForm 7 3).sku = none ∧
    (mkRow 1 nanForm 7 3).category = none ∧
    (mkRow 1 nanForm 7 3).quantity = 0 ∧
    (mkRow 1 nanForm 7 3).low_stock_threshold = some 10 ∧
    (mkRow 1 nanForm 7 3).unit_price = some (toFixed2 (19999 / 1000)) ∧
    (∃ n : ℤ, toFixed2 ((19999 : ℚ) / 1000) = (n : ℚ) / 100) := by
  obtain ⟨h1, h2, h3, h4, h5, h6, _⟩ := c7_create_normalization 1 nanForm 7 3
  have hp : parseDecParts nanForm.unitPrice = some (false, 19, 999, 3) := by
    decide
  have hval : parseFloatQ nanForm.unitPrice = some ((19999 : ℚ) / 1000) := by
    rw [parseFloatQ, hp]
    simp [partsToRat]
    norm_num
  obtain ⟨hu, hex⟩ := h6 ((19999 : ℚ) / 1000) hval (by decide)
  exact ⟨h1 (by decide), h2 (by decide), h3 rfl, h4 rfl, h5 rfl, hu, hex⟩

/-- Claim C4: the filtered view equals the list filtered by the spec predicate
(some non-null field contains the trimmed, lowercased search string,
case-insensitively); an empty or whitespace-only search passes every
item through unchanged; an empty item list yields an empty result; the
spec example returns exactly the matching item. -/
theorem c4_filter_spec (its : List InventoryItem) (search : List Char) :
    filteredList (some its) search = its.filter (specMatches search) ∧
    (jsTrim search = [] → filteredList (some its) search = its) ∧
    filteredList (some []) search = [] ∧
    filteredList none search = [] ∧
    filteredList (some [blueShirt, redHat]) ("shirt".toList) = [blueShirt] ∧
    filteredList (some [blueShirt, redHat]) [] = [blueShirt, redHat] := by
  have key : ∀ l, filteredList (some l) search = l.filter (specMatches search) := by
    intro l
    have hform : filteredList (some l) search =
        (if (jsToLower (jsTrim search)).isEmpty then l
          else l.filter fun it =>
            ((([some it.name, it.sku, it.category, it.description].filterMap id).filter
                fun f => !f.isEmpty).any fun f =>
              jsIncludes (jsToLower f) (jsToLower (jsTrim search)))) := rfl
    have hspec : ∀ it, specMatches search it =
        ((jsToLower (jsTrim search)).isEmpty ||
          ([some it.name, it.sku, it.category, it.description].filterMap id).any
            fun f => jsIncludes (jsToLower f) (jsToLower (jsTrim search))) :=
      fun it => rfl
    rw [hform]
    by_cases hq : (jsToLower (jsTrim search)).isEmpty = true
    · rw [if_pos hq]
      symm
      rw [List.filter_eq_self]
      intro it hit
      rw [hspec it, hq, Bool.true_or]
    · rw [if_neg hq]
      apply List.filter_congr
      intro it hit
      have hq2 : jsToLower (jsTrim search) ≠ [] := by
        simpa [List.isEmpty_iff] using hq
      rw [any_filter_isEmpty
        ([some it.name, it.sku, it.category, it.description].filterMap id)
        (fun f => jsIncludes (jsToLower f) (jsToLower (jsTrim search)))
        (jsIncludes_nil _ hq2)]
      rw [hspec it, Bool.eq_false_iff.mpr hq, Bool.false_or]
  refine ⟨key its, ?_, ?_, rfl, by decide, by decide⟩
  · intro h
    rw [key its, List.filter_eq_self]
    intro it hit
    simp [specMatches, h, jsToLower]
  · rw [key []]
    rfl

/-- Witness for C4: the spec's two-item example under the empty search
and under search "shirt". -/
theorem c4_filter_spec_witness :
    filteredList (some [blueShirt, redHat]) [] = [blueShirt, redHat] ∧
    filteredList (some [blueShirt, redHat]) ("shirt".toList) =
      [blueShirt, redHat].filter (specMatches ("shirt".toList)) :=
  ⟨(c4_filter_spec [blueShirt, redHat] []).2.1 rfl,
    (c4_filter_spec [blueShirt, redHat] ("shirt".toList)).1⟩

/-- Claim C8 counterexample: with no authenticated caller the list query is
simply never issued (`enabled: !!user && !loading` is false) — no
`Unauthorized` failure is raised anywhere on the list path; and even
run directly against the store, an unauthenticated select returns zero
rows as a plain empty success. -/
theorem c8_counterexample :
    listQuery none false fixtureDB = ListOutcome.notIssued ∧
    rlsSelect none fixtureDB = [] :=
  ⟨rfl, rfl⟩

/-- Claim C8 (amended): for an authenticated caller the list query returns
all and only the caller's rows, ordered by creation time descending;
with no authenticated caller the query is not issued (disabled), rather
than failing with Unauthorized. -/
theorem c8_list_owned_sorted (uid : Nat) (db : DB) :
    (∃ l, listQuery (some uid) false db = .ok l ∧
      l.Perm (rlsSelect (some uid) db) ∧
      List.Sorted createdDesc l ∧
      ∀ r, r ∈ l ↔ r ∈ db.rows ∧ r.user_id = uid) ∧
    (∀ loading, listQuery none loading db = .notIssued) := by
  constructor
  · refine ⟨List.insertionSort createdDesc (rlsSelect (some uid) db),
      by simp [listQuery], List.perm_insertionSort _ _,
      List.sorted_insertionSort _ _, ?_⟩
    intro r
    rw [(List.perm_insertionSort createdDesc (rlsSelect (some uid) db)).mem_iff]
    unfold rlsSelect
    rw [List.mem_filter]
    constructor
    · rintro ⟨h1, h2⟩
      have h3 : uid = r.user_id := by simpa using h2
      exact ⟨h1, h3.symm⟩
    · rintro ⟨h1, h2⟩
      exact ⟨h1, by simp [h2]⟩
  · intro loading
    simp [listQuery]
